import Mathlib

/-!
Verification of the vaani speech-to-text core against its natural-language
specification.  Shallow embedding of:

* `speech_to_text/core/speech_detector.py` — the energy-based segmentation
  state machine (calibration threshold publication and the per-frame
  detection loop);
* `speech_to_text/core/app.py` (`process_speech_queue`) — sentence assembly;
* `speech_to_text/models/settings.py` — settings serialization round trip;
* `speech_to_text/core/audio_processor.py` and
  `speech_to_text/utils/audio_utils.py` — the preprocessing pipeline;
* `speech_to_text/utils/text_processing.py` — transcription text cleanup.

Python floats are modelled as rationals (`ℚ`), int16 PCM samples as `ℤ`,
and wall-clock times (`time.time()`) as rational inputs supplied with each
frame or event.
-/

namespace Vaani

/-! ### Frames and energies (speech_detector.py, lines 155-167) -/

/-- One chunk of int16 PCM samples as returned by `stream.read(CHUNK)`.
In the running program every frame holds exactly `CHUNK_SIZE` samples. -/
abbrev Frame := List ℤ

/-- `SpeechDetector.CHUNK_SIZE` (speech_detector.py line 22). -/
def CHUNK_SIZE : ℕ := 1024

/-- `SpeechDetector.ENERGY_SMOOTHING_WINDOW` (speech_detector.py line 19). -/
def ENERGY_SMOOTHING_WINDOW : ℕ := 10

/-- Arithmetic mean of a list of rationals (`np.mean`); the program only
applies it to non-empty lists, the `l = []` case (where `ℚ` division by
zero yields `0`) is never reached there. -/
def listMean (l : List ℚ) : ℚ := l.sum / l.length

/-- `np.abs(audio_data).mean()` — mean absolute sample amplitude of one
frame (speech_detector.py line 163). -/
def frameEnergy (f : Frame) : ℚ := listMean (f.map (fun x => |(x : ℚ)|))

/-- Energy history update (speech_detector.py lines 164-166): append the
new energy, then `pop(0)` once the window size is exceeded. -/
def energyPush (levels : List ℚ) (e : ℚ) : List ℚ :=
  let l1 := levels ++ [e]
  if ENERGY_SMOOTHING_WINDOW < l1.length then l1.drop 1 else l1

/-- Circular pre-roll buffer update (speech_detector.py lines 158-160):
`pop(0)` when the buffer has reached `circular_buffer_size`, then append.
`pop(0)` is modelled as `drop 1`; the two differ only for
`pre_padding_chunks = 0` on an empty buffer, where CPython raises an
`IndexError` (aborting the loop before any segment is emitted). -/
def circUpdate (size : ℕ) (circ : List Frame) (data : Frame) : List Frame :=
  (if size ≤ circ.length then circ.drop 1 else circ) ++ [data]

/-! ### Detector parameters and state (speech_detector.py lines 49-57, 72-81) -/

/-- Python `int(x)` truncates toward zero. -/
def pyInt (q : ℚ) : ℤ := if 0 ≤ q then ⌊q⌋ else -⌊-q⌋

/-- `int(min_phrase_duration * RATE / CHUNK)` and the two sibling chunk
counts (speech_detector.py lines 55-57). -/
def chunksOf (seconds rate : ℚ) : ℕ := (pyInt (seconds * rate / (CHUNK_SIZE : ℚ))).toNat

/-- The per-session constants read by the detection loop.  The three chunk
counts are computed once from the settings (lines 55-57);
`silenceThreshold` is `settings.silence_threshold` as published by the
calibration step (line 137), read by the loop on every frame. -/
structure DetectorParams where
  sampleRate : ℚ
  silenceThreshold : ℚ
  sentencePauseThreshold : ℚ
  sentenceEnergyThreshold : ℚ
  minSentenceLength : ℚ
  maxSentenceLength : ℚ
  prePaddingChunks : ℕ
  silencePaddingChunks : ℕ
  minPhraseChunks : ℕ

/-- Mutable loop state (speech_detector.py lines 72-81, 141).
`sentenceStartTime` and `lastSpeechTime` are Python `None` while idle;
they are modelled as plain rationals (reset to `0`) because the program
writes both before any read whenever it enters the speaking state. -/
structure DetectorState where
  circularBuffer : List Frame
  energyLevels : List ℚ
  isSpeaking : Bool
  silentChunks : ℕ
  recordedChunks : ℕ
  sentenceStartTime : ℚ
  lastSpeechTime : ℚ
  frames : List Frame
  segmentCounter : ℕ

/-- Initial loop state (lines 72-81: empty buffers, not speaking, zero
counters; `self.segment_counter` starts at 0). -/
def initialDetectorState : DetectorState :=
  { circularBuffer := [], energyLevels := [], isSpeaking := false,
    silentChunks := 0, recordedChunks := 0, sentenceStartTime := 0,
    lastSpeechTime := 0, frames := [], segmentCounter := 0 }

/-- `SpeechSegment` (models/speech_segment.py): the payload put on the
speech queue by `_process_speech_segment`. -/
structure SpeechSegment where
  audio_data : List ℤ
  sample_rate : ℚ
  timestamp : ℚ
  segment_id : ℕ
  deriving DecidableEq

/-- One segment emission, tagged with the `split_reason` local of the
detection loop (`some reason` for a sentence-boundary cut, `none` for the
ordinary end-of-speech path, which logs no reason). -/
structure Emission where
  segment : SpeechSegment
  reason : Option String
  deriving DecidableEq

/-- The smoothed energy the loop computes for the incoming frame
(speech_detector.py lines 163-167). -/
def stepSmoothed (st : DetectorState) (data : Frame) : ℚ :=
  listMean (energyPush st.energyLevels (frameEnergy data))

/-- The sentence-boundary reason chain (speech_detector.py lines 200-213):
the three conditions are evaluated in a fixed `elif` priority. -/
def splitReason (p : DetectorParams) (smoothed duration silenceDuration : ℚ) :
    Option String :=
  if p.sentencePauseThreshold ≤ silenceDuration then some ("long pause")
  else if p.maxSentenceLength ≤ duration then some ("max length")
  else if p.sentencePauseThreshold * (1 / 2) ≤ silenceDuration ∧
          smoothed < p.silenceThreshold * p.sentenceEnergyThreshold then
    some ("energy drop")
  else none

/-- Body of the `if is_speaking:` block (speech_detector.py lines
186-244), applied to the post-transition state `st1` and the already
updated circular buffer, energy history and smoothed energy. -/
def speakingBody (p : DetectorParams) (st1 : DetectorState) (circ : List Frame)
    (levels : List ℚ) (smoothed : ℚ) (data : Frame) (now : ℚ) :
    DetectorState × List Emission :=
  let fr := st1.frames ++ [data]
  let recorded := st1.recordedChunks + 1
  let lastSpeech := if p.silenceThreshold < smoothed then now else st1.lastSpeechTime
  let silent := if p.silenceThreshold < smoothed then 0 else st1.silentChunks + 1
  let duration := now - st1.sentenceStartTime
  let reason := splitReason p smoothed duration (now - lastSpeech)
  if reason.isSome ∧ p.minSentenceLength ≤ duration then
    -- lines 215-229: sentence-boundary cut
    ({ st1 with circularBuffer := circ, energyLevels := levels, isSpeaking := false,
                silentChunks := silent, recordedChunks := recorded,
                sentenceStartTime := 0, lastSpeechTime := lastSpeech, frames := [],
                segmentCounter := st1.segmentCounter + 1 },
     [{ segment := { audio_data := fr.flatten, sample_rate := p.sampleRate,
                     timestamp := st1.sentenceStartTime,
                     segment_id := st1.segmentCounter },
        reason := reason }])
  else if p.silencePaddingChunks ≤ silent ∧ p.minPhraseChunks ≤ recorded then
    -- lines 231-244: ordinary end of speech
    if p.minPhraseChunks < fr.length then
      ({ st1 with circularBuffer := circ, energyLevels := levels, isSpeaking := false,
                  silentChunks := silent, recordedChunks := recorded,
                  sentenceStartTime := 0, lastSpeechTime := lastSpeech, frames := [],
                  segmentCounter := st1.segmentCounter + 1 },
       [{ segment := { audio_data := fr.flatten, sample_rate := p.sampleRate,
                       timestamp := st1.sentenceStartTime,
                       segment_id := st1.segmentCounter },
          reason := none }])
    else
      ({ st1 with circularBuffer := circ, energyLevels := levels, isSpeaking := false,
                  silentChunks := silent, recordedChunks := recorded,
                  sentenceStartTime := 0, lastSpeechTime := lastSpeech, frames := [],
                  segmentCounter := st1.segmentCounter }, [])
  else
    ({ st1 with circularBuffer := circ, energyLevels := levels,
                silentChunks := silent, recordedChunks := recorded,
                lastSpeechTime := lastSpeech, frames := fr }, [])

/-- One iteration of the detection loop (speech_detector.py lines
155-244) for a frame `data` read at wall-clock time `now`. -/
def detectorStep (p : DetectorParams) (st : DetectorState) (data : Frame) (now : ℚ) :
    DetectorState × List Emission :=
  let circ := circUpdate p.prePaddingChunks st.circularBuffer data
  let levels := energyPush st.energyLevels (frameEnergy data)
  let smoothed := listMean levels
  -- lines 176-184: Idle → Speaking transition seeds the segment buffer
  -- with the (just-updated) circular buffer contents
  let st1 : DetectorState :=
    if st.isSpeaking = false ∧ p.silenceThreshold < smoothed then
      { st with isSpeaking := true, sentenceStartTime := now, lastSpeechTime := now,
                silentChunks := 0, recordedChunks := 0, frames := circ }
    else st
  if st1.isSpeaking then speakingBody p st1 circ levels smoothed data now
  else ({ st1 with circularBuffer := circ, energyLevels := levels }, [])

/-- Run the detection loop over a list of `(frame, capture time)` inputs,
collecting emitted segments in order. -/
def detectorRun (p : DetectorParams) : DetectorState → List (Frame × ℚ) →
    DetectorState × List Emission
  | st, [] => (st, [])
  | st, (data, now) :: rest =>
      let s1 := detectorStep p st data now
      let s2 := detectorRun p s1.1 rest
      (s2.1, s1.2 ++ s2.2)

/-- The sequence of smoothed energies the loop computes over an input
list, starting from a given energy history. -/
def smoothedTrace (levels : List ℚ) : List (Frame × ℚ) → List ℚ
  | [] => []
  | (data, _) :: rest =>
      let l := energyPush levels (frameEnergy data)
      listMean l :: smoothedTrace l rest

/-! ### Calibration threshold publication (speech_detector.py lines 134-138) -/

/-- The adaptive-threshold publication step:
`if baseline_energy: settings.silence_threshold = max(300, min(baseline *
speech_energy_threshold, 1000))`.  Python truthiness of a float: `None`
and `0.0` are falsy, so the current `silence_threshold` is kept in those
cases. -/
def publishAdaptiveThreshold (speechEnergyThreshold currentSilenceThreshold : ℚ)
    (baseline : Option ℚ) : ℚ :=
  match baseline with
  | some b => if b ≠ 0 then max 300 (min (b * speechEnergyThreshold) 1000)
              else currentSilenceThreshold
  | none => currentSilenceThreshold

/-! ### Claim C3: adaptive threshold formula -/

/-- C3: after calibration completes with a positive baseline energy, the
published adaptive threshold equals
`clamp(baseline_energy * speech_energy_factor, 300, 1000)`
(speech_detector.py lines 134-138; the clamp is written
`max(300, min(x, 1000))`). -/
theorem adaptive_threshold_clamp (factor cur b : ℚ) (hb : 0 < b) :
    publishAdaptiveThreshold factor cur (some b) = max 300 (min (b * factor) 1000) := by
  have hstep : publishAdaptiveThreshold factor cur (some b)
      = if b ≠ 0 then max 300 (min (b * factor) 1000) else cur := rfl
  rw [hstep, if_pos (ne_of_gt hb)]

/-- Witness for C3 at the spec scenario: `baseline_energy = 200`,
`speech_energy_threshold = 3`, published threshold exactly `600`. -/
theorem adaptive_threshold_clamp_witness :
    publishAdaptiveThreshold 3 500 (some 200) = 600 := by
  rw [adaptive_threshold_clamp 3 500 200 (by norm_num)]
  norm_num

/-! ### Unfolding lemmas for the three top-level cases of a step -/

/-- A step taken while already speaking runs the speaking body on the
unchanged state. -/
theorem detectorStep_speaking (p : DetectorParams) (st : DetectorState)
    (data : Frame) (now : ℚ) (hsp : st.isSpeaking = true) :
    detectorStep p st data now
      = speakingBody p st (circUpdate p.prePaddingChunks st.circularBuffer data)
          (energyPush st.energyLevels (frameEnergy data))
          (listMean (energyPush st.energyLevels (frameEnergy data))) data now := by
  simp [detectorStep, hsp]

/-- A step taken in the idle state on a frame whose smoothed energy
exceeds the threshold transitions to speaking, seeds the segment buffer
with the circular buffer, then runs the speaking body. -/
theorem detectorStep_transition (p : DetectorParams) (st : DetectorState)
    (data : Frame) (now : ℚ) (hsp : st.isSpeaking = false)
    (htrig : p.silenceThreshold < listMean (energyPush st.energyLevels (frameEnergy data))) :
    detectorStep p st data now
      = speakingBody p
          { st with isSpeaking := true, sentenceStartTime := now, lastSpeechTime := now,
                    silentChunks := 0, recordedChunks := 0,
                    frames := circUpdate p.prePaddingChunks st.circularBuffer data }
          (circUpdate p.prePaddingChunks st.circularBuffer data)
          (energyPush st.energyLevels (frameEnergy data))
          (listMean (energyPush st.energyLevels (frameEnergy data))) data now := by
  simp [detectorStep, hsp, htrig]

/-! ### Claim C1: "long pause" cuts fire first -/

/-- The `last_speech_time` value in force when the loop evaluates the
sentence-boundary conditions: it has just been refreshed to `now` if the
current smoothed energy is above the threshold (speech_detector.py lines
190-194). -/
def effectiveLastSpeech (p : DetectorParams) (st : DetectorState) (data : Frame)
    (now : ℚ) : ℚ :=
  if p.silenceThreshold < stepSmoothed st data then now else st.lastSpeechTime

/-- In the speaking body, a silence of at least the pause threshold
combined with a duration of at least the minimum sentence length forces a
cut with reason `"long pause"`. -/
theorem speakingBody_long_pause (p : DetectorParams) (st1 : DetectorState)
    (circ : List Frame) (levels : List ℚ) (smoothed : ℚ) (data : Frame) (now : ℚ)
    (hdur : p.minSentenceLength ≤ now - st1.sentenceStartTime)
    (hsil : p.sentencePauseThreshold
      ≤ now - (if p.silenceThreshold < smoothed then now else st1.lastSpeechTime)) :
    (speakingBody p st1 circ levels smoothed data now).2
      = [{ segment := { audio_data := (st1.frames ++ [data]).flatten,
                        sample_rate := p.sampleRate,
                        timestamp := st1.sentenceStartTime,
                        segment_id := st1.segmentCounter },
           reason := some ("long pause") }]
    ∧ (speakingBody p st1 circ levels smoothed data now).1.isSpeaking = false
    ∧ (speakingBody p st1 circ levels smoothed data now).1.frames = [] := by
  simp only [speakingBody, splitReason, if_pos hsil]
  simp [hdur]

/-- C1: while in the `Speaking` state, on any frame where the accumulated
duration `now - sentence_start_time` has reached `min_sentence_length`
and the silence duration `now - last_speech_time` has reached
`sentence_pause_threshold`, the step emits exactly one `SpeechSegment`
with reason `"long pause"` and resets to `Idle` — with no condition on the
smoothed energy, and taking priority over the `"max length"` and
`"energy drop"` reasons (the `elif` chain at lines 204-213 tests the long
pause first). -/
theorem speaking_long_pause_cut (p : DetectorParams) (st : DetectorState)
    (data : Frame) (now : ℚ)
    (hsp : st.isSpeaking = true)
    (hdur : p.minSentenceLength ≤ now - st.sentenceStartTime)
    (hsil : p.sentencePauseThreshold ≤ now - effectiveLastSpeech p st data now) :
    (detectorStep p st data now).2
      = [{ segment := { audio_data := (st.frames ++ [data]).flatten,
                        sample_rate := p.sampleRate,
                        timestamp := st.sentenceStartTime,
                        segment_id := st.segmentCounter },
           reason := some ("long pause") }]
    ∧ (detectorStep p st data now).1.isSpeaking = false
    ∧ (detectorStep p st data now).1.frames = [] := by
  simp only [effectiveLastSpeech, stepSmoothed] at hsil
  rw [detectorStep_speaking p st data now hsp]
  exact speakingBody_long_pause p st _ _ _ data now hdur hsil

/-- Concrete parameters for the long-pause witness scenario. -/
def pauseDemoParams : DetectorParams :=
  { sampleRate := 16000, silenceThreshold := 600, sentencePauseThreshold := 1,
    sentenceEnergyThreshold := 3 / 10, minSentenceLength := 1 / 2,
    maxSentenceLength := 10, prePaddingChunks := 1, silencePaddingChunks := 1,
    minPhraseChunks := 1 }

/-- Concrete speaking-state snapshot for the long-pause witness. -/
def pauseDemoState : DetectorState :=
  { circularBuffer := [[7]], energyLevels := [], isSpeaking := true,
    silentChunks := 0, recordedChunks := 3, sentenceStartTime := 0,
    lastSpeechTime := 0, frames := [[7]], segmentCounter := 0 }

/-- Witness for C1: a concrete speaking state and frame on which the long
pause, max length and energy drop conditions all hold simultaneously, and
the cut that fires carries reason `"long pause"`. -/
theorem speaking_long_pause_cut_witness :
    pauseDemoState.isSpeaking = true
    ∧ pauseDemoParams.minSentenceLength ≤ 12 - pauseDemoState.sentenceStartTime
    ∧ pauseDemoParams.sentencePauseThreshold
        ≤ 12 - effectiveLastSpeech pauseDemoParams pauseDemoState [0] 12
    ∧ pauseDemoParams.maxSentenceLength ≤ 12 - pauseDemoState.sentenceStartTime
    ∧ ((detectorStep pauseDemoParams pauseDemoState [0] 12).2
        = [{ segment := { audio_data := (pauseDemoState.frames ++ [[0]]).flatten,
                          sample_rate := pauseDemoParams.sampleRate,
                          timestamp := pauseDemoState.sentenceStartTime,
                          segment_id := pauseDemoState.segmentCounter },
             reason := some ("long pause") }]
       ∧ (detectorStep pauseDemoParams pauseDemoState [0] 12).1.isSpeaking = false
       ∧ (detectorStep pauseDemoParams pauseDemoState [0] 12).1.frames = []) :=
  ⟨rfl,
   by norm_num [pauseDemoParams, pauseDemoState],
   by norm_num [pauseDemoParams, pauseDemoState, effectiveLastSpeech, stepSmoothed,
                energyPush, frameEnergy, listMean, ENERGY_SMOOTHING_WINDOW],
   by norm_num [pauseDemoParams, pauseDemoState],
   speaking_long_pause_cut pauseDemoParams pauseDemoState [0] 12 rfl
     (by norm_num [pauseDemoParams, pauseDemoState])
     (by norm_num [pauseDemoParams, pauseDemoState, effectiveLastSpeech, stepSmoothed,
                   energyPush, frameEnergy, listMean, ENERGY_SMOOTHING_WINDOW])⟩

/-! ### Claim C2: sub-threshold energy never leaves Idle -/

/-- The energy history after the loop has consumed a list of inputs. -/
def levelsAfter (levels : List ℚ) : List (Frame × ℚ) → List ℚ
  | [] => levels
  | (data, _) :: rest => levelsAfter (energyPush levels (frameEnergy data)) rest

theorem smoothedTrace_append (levels : List ℚ) (xs ys : List (Frame × ℚ)) :
    smoothedTrace levels (xs ++ ys)
      = smoothedTrace levels xs ++ smoothedTrace (levelsAfter levels xs) ys := by
  induction xs generalizing levels with
  | nil => simp [smoothedTrace, levelsAfter]
  | cons x rest ih =>
      obtain ⟨data, now⟩ := x
      simp [smoothedTrace, levelsAfter, ih]

/-- A step taken in the idle state on a frame whose smoothed energy does
not exceed the threshold only updates the two sliding buffers. -/
theorem detectorStep_idle (p : DetectorParams) (st : DetectorState) (data : Frame)
    (now : ℚ) (hsp : st.isSpeaking = false)
    (hq : listMean (energyPush st.energyLevels (frameEnergy data)) ≤ p.silenceThreshold) :
    detectorStep p st data now
      = ({ st with circularBuffer := circUpdate p.prePaddingChunks st.circularBuffer data,
                   energyLevels := energyPush st.energyLevels (frameEnergy data) }, []) := by
  have hne : ¬(st.isSpeaking = false ∧
      p.silenceThreshold < listMean (energyPush st.energyLevels (frameEnergy data))) :=
    fun h => absurd h.2 (not_lt.mpr hq)
  simp only [detectorStep, if_neg hne]
  simp [hsp]

theorem idle_run (p : DetectorParams) :
    ∀ (inputs : List (Frame × ℚ)) (st : DetectorState),
    st.isSpeaking = false →
    (∀ e ∈ smoothedTrace st.energyLevels inputs, e ≤ p.silenceThreshold) →
    (detectorRun p st inputs).1.isSpeaking = false ∧ (detectorRun p st inputs).2 = []
  | [], st, h, _ => ⟨h, rfl⟩
  | (data, now) :: rest, st, hsp, htr => by
      have hq : listMean (energyPush st.energyLevels (frameEnergy data))
          ≤ p.silenceThreshold := htr _ (by simp [smoothedTrace])
      have hrest := idle_run p rest
          { st with circularBuffer := circUpdate p.prePaddingChunks st.circularBuffer data,
                    energyLevels := energyPush st.energyLevels (frameEnergy data) }
          hsp (fun e he => htr e (by simp [smoothedTrace]; right; exact he))
      simpa [detectorRun, detectorStep_idle p st data now hsp hq] using hrest

/-- C2: for every input sequence whose smoothed energies never exceed the
adaptive threshold, the detector stays in `Idle` after every prefix of
the run and emits no `SpeechSegment` at all (speech_detector.py lines
162-184: the `Idle → Speaking` transition requires
`smoothed_energy > silence_threshold`, and segments are only emitted
while speaking). -/
theorem subthreshold_stays_idle (p : DetectorParams)
    (inputs pre suf : List (Frame × ℚ)) (hdecomp : inputs = pre ++ suf)
    (hq : ∀ e ∈ smoothedTrace ([] : List ℚ) inputs, e ≤ p.silenceThreshold) :
    (detectorRun p initialDetectorState pre).1.isSpeaking = false
    ∧ (detectorRun p initialDetectorState inputs).2 = [] := by
  have hqpre : ∀ e ∈ smoothedTrace ([] : List ℚ) pre, e ≤ p.silenceThreshold := by
    intro e he
    exact hq e (by rw [hdecomp, smoothedTrace_append]; exact List.mem_append_left _ he)
  exact ⟨(idle_run p pre initialDetectorState rfl hqpre).1,
         (idle_run p inputs initialDetectorState rfl hq).2⟩

/-- Witness for C2: two quiet frames (energies 0 and 50 against threshold
600) leave the detector idle and the segment list empty. -/
theorem subthreshold_stays_idle_witness :
    ([([0], 0), ([50], 1)] = ([([0], (0:ℚ))] : List (Frame × ℚ)) ++ [([50], 1)]
     ∧ (∀ e ∈ smoothedTrace ([] : List ℚ) [([0], (0:ℚ)), ([50], 1)],
          e ≤ pauseDemoParams.silenceThreshold))
    ∧ ((detectorRun pauseDemoParams initialDetectorState [([0], (0:ℚ))]).1.isSpeaking = false
       ∧ (detectorRun pauseDemoParams initialDetectorState
            [([0], (0:ℚ)), ([50], 1)]).2 = []) :=
  ⟨⟨rfl, by norm_num [smoothedTrace, energyPush, frameEnergy, listMean,
                      ENERGY_SMOOTHING_WINDOW, pauseDemoParams]⟩,
   subthreshold_stays_idle pauseDemoParams [([0], 0), ([50], 1)] [([0], 0)] [([50], 1)]
     rfl
     (by norm_num [smoothedTrace, energyPush, frameEnergy, listMean,
                   ENERGY_SMOOTHING_WINDOW, pauseDemoParams])⟩

/-! ### Claim C4: ordinary end-of-speech segments are long enough -/

theorem flatten_length_uniform (c : ℕ) :
    ∀ (l : List Frame), (∀ f ∈ l, f.length = c) → l.flatten.length = c * l.length
  | [], _ => by simp
  | f :: rest, h => by
      have hf : f.length = c := h f (by simp)
      have hrest := flatten_length_uniform c rest (fun g hg => h g (by simp [hg]))
      simp [hf, hrest, Nat.mul_succ, Nat.add_comm]

theorem append_single_uniform {c : ℕ} {l : List Frame} {data : Frame}
    (hl : ∀ f ∈ l, f.length = c) (hd : data.length = c) :
    ∀ f ∈ l ++ [data], f.length = c := by
  intro f hf
  rcases List.mem_append.mp hf with h | h
  · exact hl f h
  · simp at h; simpa [h] using hd

theorem circUpdate_uniform {c size : ℕ} {circ : List Frame} {data : Frame}
    (hl : ∀ f ∈ circ, f.length = c) (hd : data.length = c) :
    ∀ f ∈ circUpdate size circ data, f.length = c := by
  unfold circUpdate
  apply append_single_uniform _ hd
  intro f hf
  split at hf
  · exact hl f (List.mem_of_mem_drop hf)
  · exact hl f hf

/-- Single-step invariant for C4: chunk-uniform buffers stay uniform, and
any segment emitted without a reason tag (the ordinary end-of-speech path,
guarded by `len(frames) > min_phrase_chunks` at line 233) holds at least
`CHUNK_SIZE * (min_phrase_chunks + 1)` samples. -/
theorem speakingBody_ordinary_length (p : DetectorParams) (st1 : DetectorState)
    (circ : List Frame) (levels : List ℚ) (smoothed : ℚ) (data : Frame) (now : ℚ)
    (hfr1 : ∀ f ∈ st1.frames ++ [data], f.length = CHUNK_SIZE)
    (hcirc : ∀ f ∈ circ, f.length = CHUNK_SIZE) :
    ((∀ f ∈ (speakingBody p st1 circ levels smoothed data now).1.frames,
        f.length = CHUNK_SIZE)
     ∧ (∀ f ∈ (speakingBody p st1 circ levels smoothed data now).1.circularBuffer,
          f.length = CHUNK_SIZE))
    ∧ ∀ em ∈ (speakingBody p st1 circ levels smoothed data now).2, em.reason = none →
        CHUNK_SIZE * (p.minPhraseChunks + 1) ≤ em.segment.audio_data.length := by
  have hlen1 : (st1.frames ++ [data]).flatten.length
      = CHUNK_SIZE * (st1.frames ++ [data]).length :=
    flatten_length_uniform CHUNK_SIZE _ hfr1
  simp only [speakingBody]
  split_ifs <;> refine ⟨⟨?_, ?_⟩, ?_⟩ <;>
    first
      | exact hcirc
      | exact hfr1
      | (intro f hf; exact absurd hf (List.not_mem_nil f))
      | (intro em hem; exact absurd hem (List.not_mem_nil em))
      | (intro em hem hnone
         rw [List.mem_singleton] at hem
         subst hem
         refine le_trans (Nat.mul_le_mul_left CHUNK_SIZE ?_) (le_of_eq hlen1.symm)
         omega)
      | (intro em hem hnone
         rw [List.mem_singleton] at hem
         subst hem
         simp_all)

theorem detectorStep_ordinary_length (p : DetectorParams) (st : DetectorState)
    (data : Frame) (now : ℚ) (hdata : data.length = CHUNK_SIZE)
    (hfr : ∀ f ∈ st.frames, f.length = CHUNK_SIZE)
    (hcb : ∀ f ∈ st.circularBuffer, f.length = CHUNK_SIZE) :
    ((∀ f ∈ (detectorStep p st data now).1.frames, f.length = CHUNK_SIZE)
     ∧ (∀ f ∈ (detectorStep p st data now).1.circularBuffer, f.length = CHUNK_SIZE))
    ∧ ∀ em ∈ (detectorStep p st data now).2, em.reason = none →
        CHUNK_SIZE * (p.minPhraseChunks + 1) ≤ em.segment.audio_data.length := by
  have hcirc : ∀ f ∈ circUpdate p.prePaddingChunks st.circularBuffer data,
      f.length = CHUNK_SIZE := circUpdate_uniform hcb hdata
  by_cases hsp : st.isSpeaking = true
  · rw [detectorStep_speaking p st data now hsp]
    exact speakingBody_ordinary_length p st _ _ _ data now
      (append_single_uniform hfr hdata) hcirc
  · have hsp' : st.isSpeaking = false := by
      revert hsp; cases st.isSpeaking <;> simp
    by_cases htrig : p.silenceThreshold
        < listMean (energyPush st.energyLevels (frameEnergy data))
    · rw [detectorStep_transition p st data now hsp' htrig]
      exact speakingBody_ordinary_length p _ _ _ _ data now
        (append_single_uniform hcirc hdata) hcirc
    · rw [detectorStep_idle p st data now hsp' (not_lt.mp htrig)]
      exact ⟨⟨hfr, hcirc⟩, fun em hem => absurd hem (List.not_mem_nil em)⟩

theorem detectorRun_ordinary_length (p : DetectorParams) :
    ∀ (inputs : List (Frame × ℚ)) (st : DetectorState),
    (∀ x ∈ inputs, (Prod.fst x).length = CHUNK_SIZE) →
    (∀ f ∈ st.frames, f.length = CHUNK_SIZE) →
    (∀ f ∈ st.circularBuffer, f.length = CHUNK_SIZE) →
    ∀ em ∈ (detectorRun p st inputs).2, em.reason = none →
      CHUNK_SIZE * (p.minPhraseChunks + 1) ≤ em.segment.audio_data.length
  | [], st, _, _, _ => by simp [detectorRun]
  | (data, now) :: rest, st, hin, hfr, hcb => by
      have hstep := detectorStep_ordinary_length p st data now
        (hin (data, now) (by simp)) hfr hcb
      have hrest := detectorRun_ordinary_length p rest (detectorStep p st data now).1
        (fun x hx => hin x (by simp [hx])) hstep.1.1 hstep.1.2
      intro em hem hnone
      simp only [detectorRun, List.mem_append] at hem
      rcases hem with h | h
      · exact hstep.2 em h hnone
      · exact hrest em h hnone

/-- The decisive arithmetic fact behind C4: one chunk more than
`int(min_phrase_duration * rate / CHUNK)` chunks is strictly more than
`min_phrase_duration` seconds of audio. -/
theorem chunks_bound (d rate : ℚ) (hd : 0 ≤ d) (hr : 0 < rate) :
    d * rate < (CHUNK_SIZE : ℚ) * ((chunksOf d rate : ℕ) + 1) := by
  have hc : (0 : ℚ) < (CHUNK_SIZE : ℚ) := by norm_num [CHUNK_SIZE]
  have hx : (0 : ℚ) ≤ d * rate / (CHUNK_SIZE : ℚ) := by positivity
  have hnn : (0 : ℤ) ≤ ⌊d * rate / (CHUNK_SIZE : ℚ)⌋ := Int.floor_nonneg.mpr hx
  have hchunks : ((chunksOf d rate : ℕ) : ℤ) = ⌊d * rate / (CHUNK_SIZE : ℚ)⌋ := by
    unfold chunksOf pyInt
    rw [if_pos hx, Int.toNat_of_nonneg hnn]
  have hfl : ((chunksOf d rate : ℕ) : ℚ) = (⌊d * rate / (CHUNK_SIZE : ℚ)⌋ : ℚ) := by
    exact_mod_cast congrArg (fun z : ℤ => (z : ℚ)) hchunks
  have h1 : d * rate / (CHUNK_SIZE : ℚ) < ⌊d * rate / (CHUNK_SIZE : ℚ)⌋ + 1 :=
    Int.lt_floor_add_one _
  calc d * rate = (CHUNK_SIZE : ℚ) * (d * rate / (CHUNK_SIZE : ℚ)) := by
        field_simp
    _ < (CHUNK_SIZE : ℚ) * ((⌊d * rate / (CHUNK_SIZE : ℚ)⌋ : ℚ) + 1) :=
        mul_lt_mul_of_pos_left h1 hc
    _ = (CHUNK_SIZE : ℚ) * ((chunksOf d rate : ℕ) + 1) := by rw [hfl]

/-- C4: every `SpeechSegment` emitted through the ordinary end-of-speech
path (reason-less, speech_detector.py lines 231-244) holds at least
`min_phrase_duration` seconds of audio, provided every captured frame has
the fixed `CHUNK_SIZE` sample count (as `stream.read(CHUNK)` guarantees)
and `min_phrase_chunks` was derived from `min_phrase_duration` as at line
57. -/
theorem ordinary_segment_min_duration (p : DetectorParams) (d : ℚ)
    (inputs : List (Frame × ℚ))
    (hlen : ∀ x ∈ inputs, (Prod.fst x).length = CHUNK_SIZE)
    (hd : 0 ≤ d) (hr : 0 < p.sampleRate)
    (hmp : p.minPhraseChunks = chunksOf d p.sampleRate) :
    ∀ em ∈ (detectorRun p initialDetectorState inputs).2, em.reason = none →
      d ≤ (em.segment.audio_data.length : ℚ) / p.sampleRate := by
  intro em hem hnone
  have hb := detectorRun_ordinary_length p inputs initialDetectorState hlen
    (by simp [initialDetectorState]) (by simp [initialDetectorState]) em hem hnone
  have hbq : ((CHUNK_SIZE : ℚ) * ((p.minPhraseChunks : ℕ) + 1))
      ≤ (em.segment.audio_data.length : ℚ) := by exact_mod_cast hb
  rw [le_div_iff₀ hr]
  refine le_of_lt (lt_of_lt_of_le ?_ hbq)
  rw [hmp]
  exact chunks_bound d p.sampleRate hd hr

/-- Concrete parameters for the ordinary end-of-speech witness: sample
rate 1024 so that one chunk is one second, `min_phrase_duration` 1s. -/
def ordinaryDemoParams : DetectorParams :=
  { sampleRate := 1024, silenceThreshold := 60, sentencePauseThreshold := 100,
    sentenceEnergyThreshold := 3 / 10, minSentenceLength := 5,
    maxSentenceLength := 1000, prePaddingChunks := 1, silencePaddingChunks := 1,
    minPhraseChunks := 1 }

/-- Concrete input trace for the C4 witness: one loud chunk then one
silent chunk, both of the mandatory 1024 samples. -/
def ordinaryDemoInputs : List (Frame × ℚ) :=
  [(List.replicate 1024 (100 : ℤ), 0), (List.replicate 1024 (0 : ℤ), 1)]

/-- Witness for C4 at a concrete two-frame capture. -/
theorem ordinary_segment_min_duration_witness :
    ((∀ x ∈ ordinaryDemoInputs, (Prod.fst x).length = CHUNK_SIZE)
     ∧ (0 : ℚ) ≤ 1 ∧ (0 : ℚ) < ordinaryDemoParams.sampleRate
     ∧ ordinaryDemoParams.minPhraseChunks = chunksOf 1 ordinaryDemoParams.sampleRate)
    ∧ ∀ em ∈ (detectorRun ordinaryDemoParams initialDetectorState
          ordinaryDemoInputs).2, em.reason = none →
        (1 : ℚ) ≤ (em.segment.audio_data.length : ℚ) / ordinaryDemoParams.sampleRate := by
  have hlen : ∀ x ∈ ordinaryDemoInputs, (Prod.fst x).length = CHUNK_SIZE := by
    intro x hx
    simp only [ordinaryDemoInputs, List.mem_cons, List.not_mem_nil, or_false] at hx
    rcases hx with h | h <;> subst h <;> exact List.length_replicate _ _
  have hmp : ordinaryDemoParams.minPhraseChunks
      = chunksOf 1 ordinaryDemoParams.sampleRate := by
    norm_num [ordinaryDemoParams, chunksOf, pyInt, CHUNK_SIZE]
  exact ⟨⟨hlen, by norm_num, by norm_num [ordinaryDemoParams], hmp⟩,
    ordinary_segment_min_duration ordinaryDemoParams 1 ordinaryDemoInputs hlen
      (by norm_num) (by norm_num [ordinaryDemoParams]) hmp⟩

/-! ### Claim C9: the trigger frame enters the segment buffer twice -/

/-- On the very frame of an `Idle → Speaking` transition, no cut can fire
so long as `min_sentence_length` is positive and `silence_padding` spans
at least one chunk: the step just extends the segment buffer. -/
theorem speakingBody_continue (p : DetectorParams) (st1 : DetectorState)
    (circ : List Frame) (levels : List ℚ) (smoothed : ℚ) (data : Frame) (now : ℚ)
    (hspeech : p.silenceThreshold < smoothed)
    (hstart : st1.sentenceStartTime = now)
    (hmin : 0 < p.minSentenceLength)
    (hpad : 1 ≤ p.silencePaddingChunks) :
    speakingBody p st1 circ levels smoothed data now
      = ({ st1 with circularBuffer := circ, energyLevels := levels,
                    silentChunks := 0, recordedChunks := st1.recordedChunks + 1,
                    lastSpeechTime := now, frames := st1.frames ++ [data] }, []) := by
  have hmin' : ¬(p.minSentenceLength ≤ now - now) := by
    rw [sub_self]; exact not_le.mpr hmin
  have hpad' : ¬(p.silencePaddingChunks ≤ 0) := by omega
  simp [speakingBody, hstart, hspeech, hmin', hpad', hmin]

/-- C9: when the pre-roll ring holds at least one chunk, the frame whose
smoothed energy triggers the `Idle → Speaking` transition is stored twice
in the new segment buffer — once as the last element of the copied
circular buffer (updated at lines 158-160 before the transition check)
and once as the first live frame appended at line 187. -/
theorem transition_duplicates_trigger_frame (p : DetectorParams) (st : DetectorState)
    (data : Frame) (now : ℚ)
    (hsp : st.isSpeaking = false)
    (htrig : p.silenceThreshold < stepSmoothed st data)
    (hpre : 1 ≤ p.prePaddingChunks)
    (hmin : 0 < p.minSentenceLength)
    (hpad : 1 ≤ p.silencePaddingChunks) :
    (detectorStep p st data now).1.isSpeaking = true
    ∧ (detectorStep p st data now).1.frames
        = circUpdate p.prePaddingChunks st.circularBuffer data ++ [data]
    ∧ (circUpdate p.prePaddingChunks st.circularBuffer data).getLast? = some data
    ∧ (∃ front, (detectorStep p st data now).1.frames = front ++ [data, data])
    ∧ (detectorStep p st data now).2 = [] := by
  have htrig' : p.silenceThreshold
      < listMean (energyPush st.energyLevels (frameEnergy data)) := by
    simpa [stepSmoothed] using htrig
  rw [detectorStep_transition p st data now hsp htrig',
      speakingBody_continue p _ _ _ _ data now htrig' rfl hmin hpad]
  refine ⟨rfl, rfl, ?_, ?_, rfl⟩
  · exact List.getLast?_concat _
  · refine ⟨if p.prePaddingChunks ≤ st.circularBuffer.length
        then st.circularBuffer.drop 1 else st.circularBuffer, ?_⟩
    show circUpdate p.prePaddingChunks st.circularBuffer data ++ [data] = _
    rw [circUpdate, List.append_assoc]
    rfl

/-- Witness for C9: an idle state with one buffered pre-roll chunk and a
loud incoming frame. -/
theorem transition_duplicates_trigger_frame_witness :
    ((initialDetectorState.isSpeaking = false)
     ∧ pauseDemoParams.silenceThreshold
         < stepSmoothed initialDetectorState [1000]
     ∧ 1 ≤ pauseDemoParams.prePaddingChunks
     ∧ 0 < pauseDemoParams.minSentenceLength
     ∧ 1 ≤ pauseDemoParams.silencePaddingChunks)
    ∧ ((detectorStep pauseDemoParams initialDetectorState [1000] 5).1.isSpeaking = true
       ∧ (detectorStep pauseDemoParams initialDetectorState [1000] 5).1.frames
           = circUpdate pauseDemoParams.prePaddingChunks
               initialDetectorState.circularBuffer [1000] ++ [[1000]]
       ∧ (circUpdate pauseDemoParams.prePaddingChunks
            initialDetectorState.circularBuffer [1000]).getLast? = some [1000]
       ∧ (∃ front, (detectorStep pauseDemoParams initialDetectorState
            [1000] 5).1.frames = front ++ [[1000], [1000]])
       ∧ (detectorStep pauseDemoParams initialDetectorState [1000] 5).2 = []) := by
  have htrig : pauseDemoParams.silenceThreshold
      < stepSmoothed initialDetectorState [1000] := by
    norm_num [pauseDemoParams, initialDetectorState, stepSmoothed, energyPush,
              frameEnergy, listMean, ENERGY_SMOOTHING_WINDOW]
  exact ⟨⟨rfl, htrig, by norm_num [pauseDemoParams], by norm_num [pauseDemoParams],
          by norm_num [pauseDemoParams]⟩,
    transition_duplicates_trigger_frame pauseDemoParams initialDetectorState [1000] 5
      rfl htrig (by norm_num [pauseDemoParams]) (by norm_num [pauseDemoParams])
      (by norm_num [pauseDemoParams])⟩

/-! ### Sentence assembly (app.py, `process_speech_queue`, lines 343-427) -/

/-- Python `str.rstrip()` (strip trailing whitespace). -/
def pyRstrip (s : String) : String :=
  ⟨(s.data.reverse.dropWhile (fun c => c.isWhitespace)).reverse⟩

/-- `any(cleaned_text.rstrip().endswith(end) for end in '.!?')`
(app.py line 379). -/
def endsInPunct (s : String) : Bool :=
  match (pyRstrip s).data.getLast? with
  | some c => (c == '.') || (c == '!') || (c == '?')
  | none => false

/-- The consumer-side sentence state: `sentence_buffer` and
`last_transcription_time` locals of `process_speech_queue`. -/
structure AssemblyState where
  sentence_buffer : List String
  last_transcription_time : Option ℚ
  deriving DecidableEq

/-- Initial consumer state (app.py lines 345-346). -/
def initialAssemblyState : AssemblyState :=
  { sentence_buffer := [], last_transcription_time := none }

/-- Observable events of one consumer-loop iteration: a cleaned non-empty
transcription fragment arriving at wall-clock time `now` (lines 369-389),
or the buffer-timeout check that every iteration performs (lines
417-421). -/
inductive AssemblyEvent where
  | fragment (cleaned : String) (now : ℚ)
  | timeoutCheck (now : ℚ)

/-- One event of the sentence-assembly logic.  The second component lists
the buffers flushed to the text sink during the event; each flushed
buffer `b` reaches `insert_text` as `" ".join(b) + " "`. -/
def assemblyStep (pause : ℚ) (st : AssemblyState) :
    AssemblyEvent → AssemblyState × List (List String)
  | .fragment cleaned now =>
      -- lines 372-373
      let isContinuous : Bool := match st.last_transcription_time with
        | some t => decide (now - t < pause)
        | none => false
      if isContinuous then
        -- lines 375-381
        let buf := st.sentence_buffer ++ [cleaned]
        if endsInPunct cleaned then
          ({ sentence_buffer := [], last_transcription_time := some now }, [buf])
        else
          ({ sentence_buffer := buf, last_transcription_time := some now }, [])
      else
        -- lines 382-387: flush any previous buffer, then start a new one
        if st.sentence_buffer ≠ [] then
          ({ sentence_buffer := [cleaned], last_transcription_time := some now },
           [st.sentence_buffer])
        else
          ({ sentence_buffer := [cleaned], last_transcription_time := some now }, [])
  | .timeoutCheck now =>
      -- lines 417-421
      let stale : Bool := match st.last_transcription_time with
        | none => true
        | some t => decide (pause < now - t)
      if st.sentence_buffer ≠ [] ∧ stale then
        ({ sentence_buffer := [], last_transcription_time := none },
         [st.sentence_buffer])
      else (st, [])

/-- Run the consumer loop over a list of events, collecting flushed
buffers in order. -/
def assemblyRun (pause : ℚ) : AssemblyState → List AssemblyEvent →
    AssemblyState × List (List String)
  | st, [] => (st, [])
  | st, e :: rest =>
      let s1 := assemblyStep pause st e
      let s2 := assemblyRun pause s1.1 rest
      (s2.1, s1.2 ++ s2.2)

/-- The strings that `insert_text` receives for a list of flushed
buffers: `" ".join(buffer) + " "` for each (app.py lines 380, 385, 419). -/
def insertedStrings (flushes : List (List String)) : List String :=
  flushes.map (fun b => String.intercalate (" ") b ++ (" "))

theorem assemblyRun_append (pause : ℚ) (st : AssemblyState)
    (xs ys : List AssemblyEvent) :
    assemblyRun pause st (xs ++ ys)
      = ((assemblyRun pause (assemblyRun pause st xs).1 ys).1,
         (assemblyRun pause st xs).2
           ++ (assemblyRun pause (assemblyRun pause st xs).1 ys).2) := by
  induction xs generalizing st with
  | nil => simp [assemblyRun]
  | cons e rest ih => simp [assemblyRun, ih]

/-- Timeout checks within the pause window of the last fragment neither
flush nor change the state. -/
theorem assemblyRun_quiet_timeouts (pause t1 : ℚ) (buf : List String) :
    ∀ (ts : List ℚ), (∀ t ∈ ts, t - t1 ≤ pause) →
    assemblyRun pause ⟨buf, some t1⟩ (ts.map AssemblyEvent.timeoutCheck)
      = (⟨buf, some t1⟩, [])
  | [], _ => rfl
  | t :: rest, h => by
      have hstale : ¬(pause < t - t1) := not_lt.mpr (h t (by simp))
      have hrest := assemblyRun_quiet_timeouts pause t1 buf rest
        (fun u hu => h u (by simp [hu]))
      simp [assemblyRun, assemblyStep, hstale, hrest]

/-! ### Claim C5: two close fragments finalize as one sentence -/

/-- C5: starting from a fresh consumer state, a cleaned non-empty
fragment `f1` at time `t1`, any number of timeout checks at times within
the pause window, and a second cleaned non-empty fragment `f2` at time
`t2` with `t2 - t1 < sentence_pause_threshold` ending in `. ! ?`,
finalize exactly one string — the two fragments joined by one space in
arrival order with a trailing space — and leave the buffer empty. -/
theorem two_fragments_one_sentence (pause : ℚ) (f1 f2 : String) (t1 t2 : ℚ)
    (ts : List ℚ)
    (h1 : f1 ≠ "") (h2 : f2 ≠ "")
    (hp : endsInPunct f2 = true)
    (hts : ∀ t ∈ ts, t - t1 ≤ pause)
    (hcont : t2 - t1 < pause) :
    insertedStrings (assemblyRun pause initialAssemblyState
        (AssemblyEvent.fragment f1 t1
          :: (ts.map AssemblyEvent.timeoutCheck
                ++ [AssemblyEvent.fragment f2 t2]))).2
      = [f1 ++ (" ") ++ f2 ++ (" ")]
    ∧ (assemblyRun pause initialAssemblyState
        (AssemblyEvent.fragment f1 t1
          :: (ts.map AssemblyEvent.timeoutCheck
                ++ [AssemblyEvent.fragment f2 t2]))).1.sentence_buffer = [] := by
  have hfirst : assemblyStep pause initialAssemblyState (AssemblyEvent.fragment f1 t1)
      = (⟨[f1], some t1⟩, []) := by
    simp [assemblyStep, initialAssemblyState]
  have hsecond : assemblyStep pause ⟨[f1], some t1⟩ (AssemblyEvent.fragment f2 t2)
      = (⟨[], some t2⟩, [[f1, f2]]) := by
    simp [assemblyStep, hcont, hp]
  have hjoin : String.intercalate (" ") [f1, f2] = f1 ++ (" ") ++ f2 := rfl
  simp only [assemblyRun, hfirst, assemblyRun_append,
             assemblyRun_quiet_timeouts pause t1 [f1] ts hts]
  simp [assemblyRun, hsecond, insertedStrings, hjoin]

/-- Witness for C5 at the spec scenario: fragments 0.4s apart with
`sentence_pause_threshold = 1.0`, second fragment ending in a question
mark, with one intervening timeout check. -/
theorem two_fragments_one_sentence_witness :
    (("Hello world" : String) ≠ (""  : String)
     ∧ ("How are you?" : String) ≠ ("" : String)
     ∧ endsInPunct ("How are you?") = true
     ∧ (∀ t ∈ [(1 : ℚ)/5], t - 0 ≤ 1)
     ∧ (2 : ℚ)/5 - 0 < 1)
    ∧ (insertedStrings (assemblyRun 1 initialAssemblyState
          (AssemblyEvent.fragment ("Hello world") 0
            :: ([(1 : ℚ)/5].map AssemblyEvent.timeoutCheck
                  ++ [AssemblyEvent.fragment ("How are you?") (2/5)]))).2
        = [("Hello world" : String) ++ (" ") ++ ("How are you?") ++ (" ")]
       ∧ (assemblyRun 1 initialAssemblyState
          (AssemblyEvent.fragment ("Hello world") 0
            :: ([(1 : ℚ)/5].map AssemblyEvent.timeoutCheck
                  ++ [AssemblyEvent.fragment ("How are you?") (2/5)]))).1.sentence_buffer
          = []) := by
  have hts : ∀ t ∈ [(1 : ℚ)/5], t - 0 ≤ 1 := by
    intro t ht
    rw [List.mem_singleton] at ht
    subst ht
    norm_num
  exact ⟨⟨by decide, by decide, by decide, hts, by norm_num⟩,
    two_fragments_one_sentence 1 ("Hello world") ("How are you?") 0 (2/5)
      [(1 : ℚ)/5] (by decide) (by decide) (by decide) hts (by norm_num)⟩

/-! ### Claim C6: a finalized buffer is never re-emitted -/

/-- The cleaned fragments that arrived over a list of events, in order. -/
def arrivedFragments : List AssemblyEvent → List String
  | [] => []
  | AssemblyEvent.fragment f _ :: rest => f :: arrivedFragments rest
  | AssemblyEvent.timeoutCheck _ :: rest => arrivedFragments rest

theorem assemblyStep_conservation (pause : ℚ) (st : AssemblyState)
    (e : AssemblyEvent) :
    ((assemblyStep pause st e).2.flatten
        ++ (assemblyStep pause st e).1.sentence_buffer
      = st.sentence_buffer
          ++ (match e with
              | AssemblyEvent.fragment f _ => [f]
              | AssemblyEvent.timeoutCheck _ => []))
    ∧ ∀ b ∈ (assemblyStep pause st e).2, b ≠ [] := by
  cases e with
  | fragment f now =>
      simp only [assemblyStep]
      split_ifs with hA hB hC <;> simp_all
  | timeoutCheck now =>
      simp only [assemblyStep]
      split_ifs with hA <;> simp_all

theorem assemblyRun_conservation (pause : ℚ) :
    ∀ (events : List AssemblyEvent) (st : AssemblyState),
    ((assemblyRun pause st events).2.flatten
        ++ (assemblyRun pause st events).1.sentence_buffer
      = st.sentence_buffer ++ arrivedFragments events)
    ∧ ∀ b ∈ (assemblyRun pause st events).2, b ≠ []
  | [], st => by simp [assemblyRun, arrivedFragments]
  | e :: rest, st => by
      have hstep := assemblyStep_conservation pause st e
      have hrest := assemblyRun_conservation pause rest (assemblyStep pause st e).1
      constructor
      · have : (assemblyStep pause st e).2.flatten
            ++ ((assemblyRun pause (assemblyStep pause st e).1 rest).2.flatten
                ++ (assemblyRun pause (assemblyStep pause st e).1 rest).1.sentence_buffer)
            = (assemblyStep pause st e).2.flatten
                ++ ((assemblyStep pause st e).1.sentence_buffer
                    ++ arrivedFragments rest) := by rw [hrest.1]
        simp only [assemblyRun, List.flatten_append, List.append_assoc]
        rw [this, ← List.append_assoc, hstep.1]
        cases e <;> simp [arrivedFragments]
      · intro b hb
        simp only [assemblyRun, List.mem_append] at hb
        rcases hb with h | h
        · exact hstep.2 b h
        · exact hrest.2 b h

/-- C6: over any event sequence from a fresh consumer state, the flushed
buffers concatenate (with the still-pending buffer) to exactly the list
of arrived fragments — so no fragment, and hence no finalized buffer, is
ever emitted to the text sink twice — and every finalize flushes exactly
one non-empty buffer (one `insert_text` string). -/
theorem finalized_buffer_never_reemitted (pause : ℚ)
    (events : List AssemblyEvent) :
    ((assemblyRun pause initialAssemblyState events).2.flatten
        ++ (assemblyRun pause initialAssemblyState events).1.sentence_buffer
      = arrivedFragments events)
    ∧ ∀ b ∈ (assemblyRun pause initialAssemblyState events).2, b ≠ [] := by
  have h := assemblyRun_conservation pause events initialAssemblyState
  simpa [initialAssemblyState] using h

/-! ### Settings model (models/settings.py) -/

/-- The settings snapshot (models/settings.py, `__init__`).  Python floats
and ints are both modelled as `ℚ`; `None`-able fields as `Option`. -/
structure Settings where
  hotkey : String
  exit_hotkey : String
  settings_hotkey : String
  test_hotkey : String
  debug_hotkey : String
  sample_rate : ℚ
  silence_threshold : ℚ
  pre_padding : ℚ
  silence_padding : ℚ
  min_phrase_duration : ℚ
  use_noise_reduction : Bool
  input_device_index : Option ℤ
  visual_feedback : Bool
  sentence_pause_threshold : ℚ
  sentence_energy_threshold : ℚ
  min_sentence_length : ℚ
  max_sentence_length : ℚ
  speech_energy_threshold : ℚ
  model_size : String
  device : String
  cuda_path : String
  debug_mode : Bool
  indicator_position : ℤ × ℤ
  calibration_energy : Option ℚ
  calibration_timestamp : ℚ
  last_calibrated_device : Option ℤ

/-- Default settings (models/settings.py lines 9-51). -/
def defaultSettings : Settings :=
  { hotkey := "ctrl+alt+z", exit_hotkey := "ctrl+alt+x",
    settings_hotkey := "ctrl+alt+q", test_hotkey := "ctrl+alt+t",
    debug_hotkey := "ctrl+alt+d",
    sample_rate := 16000, silence_threshold := 500, pre_padding := 1 / 2,
    silence_padding := 3 / 10, min_phrase_duration := 1 / 2,
    use_noise_reduction := true, input_device_index := none,
    visual_feedback := true,
    sentence_pause_threshold := 1, sentence_energy_threshold := 3 / 10,
    min_sentence_length := 4 / 5, max_sentence_length := 10,
    speech_energy_threshold := 3,
    model_size := "small", device := "cuda",
    cuda_path := "C:\\Program Files\\NVIDIA GPU Computing Toolkit\\CUDA\\v12.8\\bin",
    debug_mode := false, indicator_position := (0, 0),
    calibration_energy := none, calibration_timestamp := 0,
    last_calibrated_device := none }

/-- The `"hotkeys"` section of the serialized mapping; every key is
optional so that `dict.get(key, default)` can be modelled. -/
structure HotkeysDict where
  toggle_listening : Option String
  exit_app : Option String
  settings : Option String
  test_mic : Option String
  debug_mode : Option String

/-- The `"audio"` section of the serialized mapping. -/
structure AudioDict where
  sample_rate : Option ℚ
  silence_threshold : Option ℚ
  pre_padding : Option ℚ
  silence_padding : Option ℚ
  min_phrase_duration : Option ℚ
  sentence_pause_threshold : Option ℚ
  sentence_energy_threshold : Option ℚ
  min_sentence_length : Option ℚ
  max_sentence_length : Option ℚ
  speech_energy_threshold : Option ℚ
  use_noise_reduction : Option Bool
  -- the stored value itself is `int` or `None` in the file
  input_device_index : Option (Option ℤ)

/-- The `"processing"` section of the serialized mapping. -/
structure ProcessingDict where
  model_size : Option String
  device : Option String
  cuda_path : Option String

/-- The `"ui"` section of the serialized mapping. -/
structure UiDict where
  visual_feedback : Option Bool
  indicator_position : Option (ℤ × ℤ)

/-- The `"calibration"` section of the serialized mapping. -/
structure CalibrationDict where
  energy : Option (Option ℚ)
  timestamp : Option ℚ
  device_index : Option (Option ℤ)

/-- The nested mapping produced by `Settings.to_dict` / consumed by
`Settings.update`; each section may be absent. -/
structure SettingsDict where
  hotkeys : Option HotkeysDict
  audio : Option AudioDict
  processing : Option ProcessingDict
  ui : Option UiDict
  calibration : Option CalibrationDict

/-- `Settings.to_dict` (models/settings.py lines 106-145).  Note that
`debug_mode` (the boolean on `Settings`, as opposed to the hotkey of the
same name) and the five hotkeys are serialized, but the snapshot's
`debug_mode` flag itself is not. -/
def Settings.to_dict (s : Settings) : SettingsDict :=
  { hotkeys := some
      { toggle_listening := some s.hotkey, exit_app := some s.exit_hotkey,
        settings := some s.settings_hotkey, test_mic := some s.test_hotkey,
        debug_mode := some s.debug_hotkey },
    audio := some
      { sample_rate := some s.sample_rate,
        silence_threshold := some s.silence_threshold,
        pre_padding := some s.pre_padding,
        silence_padding := some s.silence_padding,
        min_phrase_duration := some s.min_phrase_duration,
        sentence_pause_threshold := some s.sentence_pause_threshold,
        sentence_energy_threshold := some s.sentence_energy_threshold,
        min_sentence_length := some s.min_sentence_length,
        max_sentence_length := some s.max_sentence_length,
        speech_energy_threshold := some s.speech_energy_threshold,
        use_noise_reduction := some s.use_noise_reduction,
        input_device_index := some s.input_device_index },
    processing := some
      { model_size := some s.model_size, device := some s.device,
        cuda_path := some s.cuda_path },
    ui := some
      { visual_feedback := some s.visual_feedback,
        indicator_position := some s.indicator_position },
    calibration := some
      { energy := some s.calibration_energy,
        timestamp := some s.calibration_timestamp,
        device_index := some s.last_calibrated_device } }

/-- `Settings.update` (models/settings.py lines 53-104): each section, if
present, overwrites the fields whose keys are present and keeps the
current value otherwise.  In this typed model the stored
`input_device_index` is already `int`-or-`None`, so the source's
`isinstance` guard (lines 81-88) always takes its first branch. -/
def Settings.update (self : Settings) (d : SettingsDict) : Settings :=
  let s1 := match d.hotkeys with
    | none => self
    | some h =>
        { self with
          hotkey := h.toggle_listening.getD self.hotkey,
          exit_hotkey := h.exit_app.getD self.exit_hotkey,
          settings_hotkey := h.settings.getD self.settings_hotkey,
          test_hotkey := h.test_mic.getD self.test_hotkey,
          debug_hotkey := h.debug_mode.getD self.debug_hotkey }
  let s2 := match d.audio with
    | none => s1
    | some a =>
        { s1 with
          sample_rate := a.sample_rate.getD s1.sample_rate,
          silence_threshold := a.silence_threshold.getD s1.silence_threshold,
          pre_padding := a.pre_padding.getD s1.pre_padding,
          silence_padding := a.silence_padding.getD s1.silence_padding,
          min_phrase_duration := a.min_phrase_duration.getD s1.min_phrase_duration,
          sentence_pause_threshold :=
            a.sentence_pause_threshold.getD s1.sentence_pause_threshold,
          sentence_energy_threshold :=
            a.sentence_energy_threshold.getD s1.sentence_energy_threshold,
          min_sentence_length := a.min_sentence_length.getD s1.min_sentence_length,
          max_sentence_length := a.max_sentence_length.getD s1.max_sentence_length,
          speech_energy_threshold :=
            a.speech_energy_threshold.getD s1.speech_energy_threshold,
          use_noise_reduction := a.use_noise_reduction.getD s1.use_noise_reduction,
          input_device_index := a.input_device_index.getD s1.input_device_index }
  let s3 := match d.processing with
    | none => s2
    | some pr =>
        { s2 with
          model_size := pr.model_size.getD s2.model_size,
          device := pr.device.getD s2.device,
          cuda_path := pr.cuda_path.getD s2.cuda_path }
  let s4 := match d.ui with
    | none => s3
    | some u =>
        { s3 with
          visual_feedback := u.visual_feedback.getD s3.visual_feedback,
          indicator_position := u.indicator_position.getD s3.indicator_position }
  match d.calibration with
  | none => s4
  | some c =>
      { s4 with
        calibration_energy := c.energy.getD s4.calibration_energy,
        calibration_timestamp := c.timestamp.getD s4.calibration_timestamp,
        last_calibrated_device := c.device_index.getD s4.last_calibrated_device }

/-! ### Claim C8: serialization round trip of adaptive-threshold inputs -/

/-- C8: restoring a fresh snapshot from the serialized mapping of any
snapshot reproduces every input of the adaptive-threshold computation
identically. -/
theorem settings_roundtrip (s : Settings) :
    (Settings.update defaultSettings (Settings.to_dict s)).sample_rate = s.sample_rate
    ∧ (Settings.update defaultSettings (Settings.to_dict s)).silence_threshold
        = s.silence_threshold
    ∧ (Settings.update defaultSettings (Settings.to_dict s)).speech_energy_threshold
        = s.speech_energy_threshold
    ∧ (Settings.update defaultSettings (Settings.to_dict s)).sentence_pause_threshold
        = s.sentence_pause_threshold
    ∧ (Settings.update defaultSettings (Settings.to_dict s)).sentence_energy_threshold
        = s.sentence_energy_threshold
    ∧ (Settings.update defaultSettings (Settings.to_dict s)).min_sentence_length
        = s.min_sentence_length
    ∧ (Settings.update defaultSettings (Settings.to_dict s)).max_sentence_length
        = s.max_sentence_length
    ∧ (Settings.update defaultSettings (Settings.to_dict s)).min_phrase_duration
        = s.min_phrase_duration
    ∧ (Settings.update defaultSettings (Settings.to_dict s)).pre_padding = s.pre_padding
    ∧ (Settings.update defaultSettings (Settings.to_dict s)).silence_padding
        = s.silence_padding
    ∧ (Settings.update defaultSettings (Settings.to_dict s)).calibration_energy
        = s.calibration_energy
    ∧ (Settings.update defaultSettings (Settings.to_dict s)).calibration_timestamp
        = s.calibration_timestamp
    ∧ (Settings.update defaultSettings (Settings.to_dict s)).last_calibrated_device
        = s.last_calibrated_device
    ∧ (Settings.update defaultSettings (Settings.to_dict s)).input_device_index
        = s.input_device_index := by
  simp [Settings.update, Settings.to_dict]

/-! ### Preprocessing pipeline (utils/audio_utils.py, core/audio_processor.py)

Python exceptions are modelled with `Except`.  The two numeric kernels
that cannot be embedded exactly — `scipy.signal.sosfilt` and
`noisereduce.reduce_noise`, both floating-point computations in external
libraries — are taken as parameters; everything else (control flow, the
complete absence of `try`/`except` in `normalize_audio`,
`apply_highpass_filter` and `preprocess_audio`, and the lone
`except ImportError` in `apply_noise_reduction`) follows the source. -/

/-- The Python exception classes relevant to the pipeline. -/
inductive PyErr where
  | valueError
  | importError
  deriving DecidableEq

/-- `normalize_audio` (audio_utils.py lines 14-26): divides by
`np.abs(audio).max()` when positive.  NumPy raises
`ValueError: zero-size array to reduction operation` when `.max()` is
taken over an empty buffer, and the function has no handler for it. -/
def normalize_audio (audio : List ℚ) : Except PyErr (List ℚ) :=
  match audio with
  | [] => Except.error PyErr.valueError
  | x :: rest =>
      let m := rest.foldl (fun acc y => max acc |y|) |x|
      if 0 < m then Except.ok (audio.map (fun y => y / m * (9 / 10)))
      else Except.ok audio

/-- `AudioProcessor.DEFAULT_HIGHPASS_CUTOFF` (audio_processor.py line 23). -/
def DEFAULT_HIGHPASS_CUTOFF : ℚ := 100

/-- `apply_highpass_filter` (audio_utils.py lines 28-41): designs a
2nd-order Butterworth high-pass with `signal.butter(2, cutoff, fs=rate)`
and applies `signal.sosfilt`.  Per the scipy contract, `butter` raises
`ValueError` unless the critical frequency satisfies
`0 < cutoff < fs / 2`; the function has no `try`/`except`, so that error
escapes.  The float filter arithmetic itself is the abstract kernel
`sosfiltK`. -/
def apply_highpass_filter (sosfiltK : List ℚ → List ℚ) (audio : List ℚ)
    (sample_rate cutoff : ℚ) : Except PyErr (List ℚ) :=
  if 0 < cutoff ∧ 2 * cutoff < sample_rate then Except.ok (sosfiltK audio)
  else Except.error PyErr.valueError

/-- `apply_noise_reduction` (audio_utils.py lines 43-64): the whole body
sits in a `try` whose only handler is `except ImportError` (returning the
input unmodified); any other exception raised by the
`noisereduce.reduce_noise` kernel `reduceK` escapes.  `importOk` is
whether `import noisereduce` succeeds in the running environment. -/
def apply_noise_reduction (importOk : Bool)
    (reduceK : List ℚ → Option (List ℚ) → Except PyErr (List ℚ))
    (audio : List ℚ) (sample_rate : ℚ) : Except PyErr (List ℚ) :=
  let body : Except PyErr (List ℚ) :=
    if importOk then
      -- noise_sample = audio[:int(sample_rate * 0.3)] if len > 0.3s else None
      let noiseSample :=
        if sample_rate * (3 / 10) < (audio.length : ℚ) then
          some (audio.take (pyInt (sample_rate * (3 / 10))).toNat)
        else none
      reduceK audio noiseSample
    else Except.error PyErr.importError
  match body with
  | Except.error PyErr.importError => Except.ok audio
  | r => r

/-- `AudioProcessor.preprocess_audio` (audio_processor.py lines 128-141):
int16 → float32 scaling, then the three stages in sequence, with no
exception handling of its own. -/
def preprocess_audio (sosfiltK : List ℚ → List ℚ) (importOk : Bool)
    (reduceK : List ℚ → Option (List ℚ) → Except PyErr (List ℚ))
    (use_noise_reduction : Bool) (sample_rate : ℚ) (audioInt : List ℤ) :
    Except PyErr (List ℚ) :=
  let a0 := audioInt.map (fun x => (x : ℚ) / 32768)
  match normalize_audio a0 with
  | Except.error e => Except.error e
  | Except.ok a1 =>
      match apply_highpass_filter sosfiltK a1 sample_rate DEFAULT_HIGHPASS_CUTOFF with
      | Except.error e => Except.error e
      | Except.ok a2 =>
          if use_noise_reduction then
            apply_noise_reduction importOk reduceK a2 sample_rate
          else Except.ok a2

/-! ### Claim C7: failing stages do not return their input unmodified -/

/-- Counterexample to C7 as stated: on the empty input buffer,
`np.abs(audio).max()` inside `normalize_audio` raises `ValueError` and
`preprocess_audio` propagates it instead of returning the input — the
pipeline does not shield every stage failure. -/
theorem preprocess_audio_empty_propagates :
    preprocess_audio id true (fun a _ => Except.ok a) true 16000 ([] : List ℤ)
      = Except.error PyErr.valueError
    ∧ ∀ out : List ℚ,
        preprocess_audio id true (fun a _ => Except.ok a) true 16000 ([] : List ℤ)
          ≠ Except.ok out := by
  refine ⟨rfl, ?_⟩
  intro out h
  rw [show preprocess_audio id true (fun a _ => Except.ok a) true 16000 ([] : List ℤ)
      = Except.error PyErr.valueError from rfl] at h
  cases h

/-- C7 amended: only the noise-reduction stage returns its input
unmodified on failure, and only for a missing `noisereduce` library
(`ImportError`); any other stage failure propagates out of
`preprocess_audio` uncaught — in particular the `ValueError` from
normalizing an empty buffer, and the `ValueError` from designing the
100 Hz high-pass filter at a sample rate not exceeding twice the cutoff. -/
theorem preprocess_error_handling (sosfiltK : List ℚ → List ℚ)
    (reduceK : List ℚ → Option (List ℚ) → Except PyErr (List ℚ))
    (importOk use_noise_reduction : Bool) (fs : ℚ) (audio : List ℚ) :
    apply_noise_reduction false reduceK audio fs = Except.ok audio
    ∧ preprocess_audio sosfiltK importOk reduceK use_noise_reduction fs ([] : List ℤ)
        = Except.error PyErr.valueError
    ∧ apply_highpass_filter sosfiltK audio 100 DEFAULT_HIGHPASS_CUTOFF
        = Except.error PyErr.valueError := by
  refine ⟨rfl, rfl, ?_⟩
  have hno : ¬(0 < DEFAULT_HIGHPASS_CUTOFF ∧ 2 * DEFAULT_HIGHPASS_CUTOFF < (100 : ℚ)) := by
    norm_num [DEFAULT_HIGHPASS_CUTOFF]
  simp [apply_highpass_filter, hno]

/-! ### Text post-processing (utils/text_processing.py)

`TextProcessor.post_process_text` is a chain of `re.sub` passes followed
by capitalization and punctuation fixes.  The passes are embedded as
character scanners over `List Char`: Python `\w` is `[A-Za-z0-9_]` (ASCII
inputs), `\b` is a transition between word and non-word characters, and
`re.sub` replaces non-overlapping matches left to right, continuing after
each match in the original text.  Each scanner carries a fuel argument
(initialized to the text length, an upper bound on the number of steps,
each of which consumes at least one character) so that everything reduces
structurally. -/

/-- Python regex `\w` over ASCII text. -/
def wordChar (c : Char) : Bool := c.isAlphanum || c == '_'

/-- Whether the position at the head of `l` closes a `\b` after a word
character: end of text or a non-word character ahead. -/
def nonWordAhead (l : List Char) : Bool :=
  match l.head? with
  | some d => !wordChar d
  | none => true

/-- Whether the head of `l` is a word character (for the `\w+` part of
the lookahead in the `like` filler pattern). -/
def wordAhead (l : List Char) : Bool :=
  match l.head? with
  | some d => wordChar d
  | none => false

/-- The apostrophe character (used by several `common_fixes` patterns). -/
def apos : Char := Char.ofNat 39

/-- Python `str.strip()`. -/
def pyStrip (s : String) : String :=
  ⟨((s.data.dropWhile (fun c => c.isWhitespace)).reverse.dropWhile
      (fun c => c.isWhitespace)).reverse⟩

/-- One `re.sub(r'\bLIT\b', rep, ·)` pass for a literal pattern whose
first and last characters are word characters (true of every literal
pattern in `filler_words` and `common_fixes`).  `prevWord` records
whether the character before the current position is a word character
(for the leading `\b`). -/
def subLitGo (pat rep : List Char) : ℕ → Bool → List Char → List Char
  | 0, _, rest => rest
  | _ + 1, _, [] => []
  | fuel + 1, prevWord, c :: cs =>
      if !prevWord ∧ pat.isPrefixOf (c :: cs)
          ∧ nonWordAhead ((c :: cs).drop pat.length) then
        rep ++ subLitGo pat rep fuel true ((c :: cs).drop pat.length)
      else c :: subLitGo pat rep fuel (wordChar c) cs

def subLit (pat rep : List Char) (l : List Char) : List Char :=
  subLitGo pat rep l.length false l

/-- One `re.sub(r'\bab+\b', '', ·)` pass (the `um+ / uh+ / er+ / ah+ /
hm+` fillers).  Greediness needs no backtracking: if the maximal `b` run
is followed by a word character the trailing `\b` fails for every
shorter run as well, since those end right before another `b`. -/
def subDoubledGo (a b : Char) : ℕ → Bool → List Char → List Char
  | 0, _, rest => rest
  | _ + 1, _, [] => []
  | fuel + 1, prevWord, c :: cs =>
      if !prevWord ∧ c == a ∧ cs.takeWhile (fun d => d == b) ≠ []
          ∧ nonWordAhead (cs.dropWhile (fun d => d == b)) then
        subDoubledGo a b fuel true (cs.dropWhile (fun d => d == b))
      else c :: subDoubledGo a b fuel (wordChar c) cs

def subDoubled (a b : Char) (l : List Char) : List Char :=
  subDoubledGo a b l.length false l

/-- The `re.sub(r'\blike\b(?=\s+\w+)', '', ·)` pass.  The lookahead
requires at least one whitespace character (which also discharges the
trailing `\b`) followed by a word character, and is not consumed. -/
def subLikeGo : ℕ → Bool → List Char → List Char
  | 0, _, rest => rest
  | _ + 1, _, [] => []
  | fuel + 1, prevWord, c :: cs =>
      if !prevWord ∧ (['l', 'i', 'k', 'e'] : List Char).isPrefixOf (c :: cs)
          ∧ ((c :: cs).drop 4).takeWhile (fun d => d.isWhitespace) ≠ []
          ∧ wordAhead (((c :: cs).drop 4).dropWhile (fun d => d.isWhitespace)) then
        subLikeGo fuel true ((c :: cs).drop 4)
      else c :: subLikeGo fuel (wordChar c) cs

def subLike (l : List Char) : List Char := subLikeGo l.length false l

/-- Greedy consumption of `( \1\b)+` for the repeated-word pass: eats as
many `" " ++ w` groups (each ending at a word boundary) as possible. -/
def eatReps (w : List Char) : ℕ → List Char → ℕ × List Char
  | 0, rest => (0, rest)
  | fuel + 1, rest =>
      match rest with
      | ' ' :: rest1 =>
          if w.isPrefixOf rest1 ∧ nonWordAhead (rest1.drop w.length) then
            let r := eatReps w fuel (rest1.drop w.length)
            (r.1 + 1, r.2)
          else (0, rest)
      | _ => (0, rest)

/-- The `re.sub(r'\b(\w+)( \1\b)+', r'\1', ·)` pass.  The group `(\w+)`
must be the full word token: any proper prefix is followed by another
word character where the pattern requires a space, so no backtracking on
the group is needed. -/
def subRepeatsGo : ℕ → Bool → List Char → List Char
  | 0, _, rest => rest
  | _ + 1, _, [] => []
  | fuel + 1, prevWord, c :: cs =>
      if !prevWord ∧ wordChar c then
        let w := (c :: cs).takeWhile (fun d => wordChar d)
        let rest2 := (c :: cs).dropWhile (fun d => wordChar d)
        let r := eatReps w rest2.length rest2
        if 0 < r.1 then w ++ subRepeatsGo fuel true r.2
        else w ++ subRepeatsGo fuel true rest2
      else c :: subRepeatsGo fuel (wordChar c) cs

def subRepeats (l : List Char) : List Char := subRepeatsGo l.length false l

/-- The `re.sub(r'\s+', ' ', ·)` pass. -/
def collapseWsGo : ℕ → List Char → List Char
  | 0, rest => rest
  | _ + 1, [] => []
  | fuel + 1, c :: cs =>
      if c.isWhitespace then
        ' ' :: collapseWsGo fuel (cs.dropWhile (fun d => d.isWhitespace))
      else c :: collapseWsGo fuel cs

def collapseWs (l : List Char) : List Char := collapseWsGo l.length l

/-- `TextProcessor.filler_words` removal (text_processing.py lines 16-19,
54-55), in list order. -/
def removeFillers (l : List Char) : List Char :=
  subLit (['b', 'a', 's', 'i', 'c', 'a', 'l', 'l', 'y']) []
    (subLit (['a', 'c', 't', 'u', 'a', 'l', 'l', 'y']) []
      (subLike
        (subLit (['y', 'o', 'u', ' ', 'k', 'n', 'o', 'w']) []
          (subDoubled 'h' 'm'
            (subDoubled 'a' 'h'
              (subDoubled 'e' 'r'
                (subDoubled 'u' 'h'
                  (subDoubled 'u' 'm' l))))))))

/-- `TextProcessor.common_fixes` (text_processing.py lines 22-35), in
insertion order. -/
def commonFixes : List (List Char × List Char) :=
  [(['i', ' ', 's', 'e', 'e'], ['I', ' ', 's', 'e', 'e']),
   (['i', ' ', 'a', 'm'], ['I', ' ', 'a', 'm']),
   (['i', apos, 'm'], ['I', apos, 'm']),
   (['i', apos, 'l', 'l'], ['I', apos, 'l', 'l']),
   (['i', apos, 'v', 'e'], ['I', apos, 'v', 'e']),
   (['i', apos, 'd'], ['I', apos, 'd']),
   (['w', 'e', apos, 'r', 'e'], ['w', 'e', apos, 'r', 'e']),
   (['y', 'o', 'u', apos, 'r', 'e'], ['y', 'o', 'u', apos, 'r', 'e']),
   (['t', 'h', 'e', 'y', apos, 'r', 'e'], ['t', 'h', 'e', 'y', apos, 'r', 'e']),
   (['w', 'o', 'n', 't'], ['w', 'o', 'n', apos, 't']),
   (['c', 'a', 'n', 't'], ['c', 'a', 'n', apos, 't']),
   (['d', 'o', 'n', 't'], ['d', 'o', 'n', apos, 't'])]

def applyFixes (l : List Char) : List Char :=
  commonFixes.foldl (fun acc pr => subLit pr.1 pr.2 acc) l

/-- The full substitution chain of `post_process_text` (text_processing.py
lines 53-65). -/
def cleanupPasses (l : List Char) : List Char :=
  collapseWs (subRepeats (applyFixes (removeFillers l)))

/-- The final two hardcoded steps of `post_process_text` (lines 67-73):
uppercase the first character, then append `'.'` unless the text already
ends in `. ! ?`.  Python `str.upper` agrees with `Char.toUpper` on the
ASCII texts modelled here. -/
def capitalizeAndPunctuate (l : List Char) : String :=
  let l2 := match l with
    | [] => []
    | c :: cs => c.toUpper :: cs
  match l2.getLast? with
  | none => ⟨l2⟩
  | some c => if c == '.' || c == '!' || c == '?' then ⟨l2⟩ else ⟨l2 ++ ['.']⟩

/-- `TextProcessor.post_process_text` (text_processing.py lines 37-75). -/
def post_process_text (text : String) : String :=
  let t := pyStrip text
  if t = ("") then t
  else capitalizeAndPunctuate (cleanupPasses t.data)

/-! ### Claim C10: shape of the post-processed text -/

/-- Counterexample to C10 as stated: on input `"1"` the processor
returns `"1."`, whose first character is not uppercase (lines 68-69 only
map the first character through `str.upper`, which leaves digits,
punctuation and whitespace unchanged), so the output is neither empty nor
uppercase-initial. -/
theorem post_process_not_capitalized_on_digit :
    post_process_text ("1") = ("1.")
    ∧ ¬(post_process_text ("1") = ("")
        ∨ (((post_process_text ("1")).data.head?.map Char.isUpper = some true)
           ∧ ((post_process_text ("1")).data.getLast? = some '.'
              ∨ (post_process_text ("1")).data.getLast? = some '!'
              ∨ (post_process_text ("1")).data.getLast? = some '?'))) := by
  decide

/-- If a string ends in a non-whitespace character, `rstrip` leaves it
unchanged. -/
theorem pyRstrip_of_last_not_ws (s : String) (p : Char)
    (h : s.data.getLast? = some p) (hws : p.isWhitespace = false) :
    pyRstrip s = s := by
  have hrev : s.data.reverse.head? = some p := by
    rw [List.head?_reverse, h]
  cases hd : s.data.reverse with
  | nil => rw [hd] at hrev; cases hrev
  | cons a rest =>
      rw [hd] at hrev
      have ha : a = p := by simpa using hrev
      subst ha
      unfold pyRstrip
      rw [hd, List.dropWhile_cons_of_neg (by simp [hws]), ← hd, List.reverse_reverse]

/-- A string whose final character is `'.'`, `'!'` or `'?'` satisfies the
sentence-assembly punctuation test (app.py line 379). -/
theorem endsInPunct_of_last (s : String) (p : Char)
    (h : s.data.getLast? = some p)
    (hp : ((p == '.') || (p == '!') || (p == '?')) = true) :
    endsInPunct s = true := by
  have hws : p.isWhitespace = false := by
    rcases Bool.or_eq_true_iff.mp hp with hq | hq
    · rcases Bool.or_eq_true_iff.mp hq with hr | hr
      · rw [show p = Char.ofNat 46 from by exact beq_iff_eq.mp hr]; decide
      · rw [show p = Char.ofNat 33 from by exact beq_iff_eq.mp hr]; decide
    · rw [show p = Char.ofNat 63 from by exact beq_iff_eq.mp hq]; decide
  unfold endsInPunct
  rw [pyRstrip_of_last_not_ws s p h hws, h]
  exact hp

/-- Shape of the final capitalize-and-punctuate steps, for any cleaned
character list. -/
theorem capitalizeAndPunctuate_shape (l : List Char) :
    capitalizeAndPunctuate l = ("")
    ∨ (((capitalizeAndPunctuate l).data.getLast? = some '.'
          ∨ (capitalizeAndPunctuate l).data.getLast? = some '!'
          ∨ (capitalizeAndPunctuate l).data.getLast? = some '?')
       ∧ endsInPunct (capitalizeAndPunctuate l) = true
       ∧ ∃ c cs, (capitalizeAndPunctuate l).data = Char.toUpper c :: cs) := by
  cases l with
  | nil => left; rfl
  | cons c cs =>
      right
      cases hget : (c.toUpper :: cs).getLast? with
      | none => simp at hget
      | some d =>
          have hstep : capitalizeAndPunctuate (c :: cs)
              = (match (c.toUpper :: cs).getLast? with
                 | none => (⟨c.toUpper :: cs⟩ : String)
                 | some p => if (p == '.') || (p == '!') || (p == '?')
                     then (⟨c.toUpper :: cs⟩ : String)
                     else ⟨(c.toUpper :: cs) ++ ['.']⟩) := rfl
          have hdef : capitalizeAndPunctuate (c :: cs)
              = (if (d == '.') || (d == '!') || (d == '?')
                 then (⟨c.toUpper :: cs⟩ : String)
                 else ⟨(c.toUpper :: cs) ++ ['.']⟩) := by
            rw [hstep, hget]
          by_cases hcond : ((d == '.') || (d == '!') || (d == '?')) = true
          · rw [hdef, if_pos hcond]
            have hlast : (⟨c.toUpper :: cs⟩ : String).data.getLast? = some d := hget
            refine ⟨?_, endsInPunct_of_last _ d hlast hcond, c, cs, rfl⟩
            rcases Bool.or_eq_true_iff.mp hcond with hq | hq
            · rcases Bool.or_eq_true_iff.mp hq with hr | hr
              · exact Or.inl (by rw [hlast, beq_iff_eq.mp hr])
              · exact Or.inr (Or.inl (by rw [hlast, beq_iff_eq.mp hr]))
            · exact Or.inr (Or.inr (by rw [hlast, beq_iff_eq.mp hq]))
          · rw [hdef, if_neg hcond]
            have hlast : (⟨(c.toUpper :: cs) ++ ['.']⟩ : String).data.getLast? = some '.' :=
              List.getLast?_concat _
            exact ⟨Or.inl hlast, endsInPunct_of_last _ _ hlast (by decide),
                   c, cs ++ ['.'], rfl⟩

/-- C10 amended: for every input string the post-processed output is
either empty, or it ends in `'.'`, `'!'` or `'?'` (a period is appended
when terminal punctuation is missing) — so every non-empty cleaned
fragment handed to sentence assembly passes its punctuation test — and
its first character is the `toUpper` image of the cleaned text's first
character: uppercase when that character is a letter, but unchanged (and
not an uppercase letter) when the cleaned text starts with a digit,
punctuation or space. -/
theorem post_process_shape (s : String) :
    post_process_text s = ("")
    ∨ (((post_process_text s).data.getLast? = some '.'
          ∨ (post_process_text s).data.getLast? = some '!'
          ∨ (post_process_text s).data.getLast? = some '?')
       ∧ endsInPunct (post_process_text s) = true
       ∧ ∃ c cs, (post_process_text s).data = Char.toUpper c :: cs) := by
  unfold post_process_text
  by_cases hq : pyStrip s = ("")
  · rw [if_pos hq]; left; exact hq
  · rw [if_neg hq]
    exact capitalizeAndPunctuate_shape (cleanupPasses (pyStrip s).data)

end Vaani
